import Mathlib

/-!
Shallow embedding of the TPM security client
(`src/security/tpm/src/tpm.ts`, class `TpmSecurityClient`) and proofs about
its connection state machine, persistent-key provisioner, identity-activation
protocol, chunked-signing procedure and registration-id derivation.

Machine integers are modelled as `Nat`; byte buffers as `List Nat`;
TPM public-area descriptors (`TPMT_PUBLIC`) as their opaque byte content
`List Nat`.  The TPM module itself (tss.js) is an external collaborator and is
modelled at its interface boundary: response codes are injected through
explicit fault parameters, and the persistent-object namespace is explicit
state.  Asynchronous callbacks are modelled by making each routine return the
value (or error) it would deliver through its callback; `Option` around that
result records whether the callback is invoked at all.
-/

set_option autoImplicit false

namespace TpmModel

/-- A TPM public-area descriptor (`TPMT_PUBLIC`), kept opaque as its bytes. -/
abbrev Pub := List Nat

/-- The error values the client surfaces (SecurityDeviceError variants from
`tpm.ts`, tagged by the protocol step that produced them, plus the transport
connect failure). -/
inductive ErrTag where
  | unexpectedCapabilityResult
  | authSessionFailed
  | policySecretFailed
  | activateCredentialFailed
  | importFailed
  | loadFailed
  | persistFailed
  | connectFailed (code : Nat)
deriving Repr, DecidableEq

/-- TPM module commands issued by `_signData` (tss.js interface calls). -/
inductive SignOp where
  | getCapability
  | hmacSingle (data : List Nat)
  | hmacStart
  | seqUpdate (chunk : List Nat)
  | seqComplete (chunk : List Nat)
deriving Repr, DecidableEq

/-- The `TPM_PT.INPUT_BUFFER` property tag queried by `_signData`. -/
def INPUT_BUFFER : Nat := 0x10d

/-- The chunking loop `loopFn` of `_signData` (tpm.ts lines 259-270): while
more than `maxInputBuffer` bytes remain, feed a `SequenceUpdate` with the
slice `[curPos, curPos + maxInputBuffer)`; otherwise feed the final
`SequenceComplete` with the remaining `bytesLeft` bytes.  The source loops
through callback recursion; here `fuel` bounds the recursion (any
`fuel ≥ bytesLeft` is enough when `maxInputBuffer ≥ 1`, since each
iteration consumes at least one byte). -/
def signLoop (maxInputBuffer : Nat) (dataToSign : List Nat) :
    Nat → Nat → Nat → List SignOp
  | 0, _, _ => []
  | fuel + 1, curPos, bytesLeft =>
    if bytesLeft > maxInputBuffer then
      SignOp.seqUpdate ((dataToSign.drop curPos).take maxInputBuffer) ::
        signLoop maxInputBuffer dataToSign fuel (curPos + maxInputBuffer)
          (bytesLeft - maxInputBuffer)
    else
      [SignOp.seqComplete ((dataToSign.drop curPos).take bytesLeft)]

/-- The `_signData` routine (tpm.ts lines 240-279).  `hmacFn` abstracts the
HMAC primitive of the module under the installed identity key; `capResp` is
the reply of the module to
`GetCapability(TPM_PT.INPUT_BUFFER)` as (property, value) pairs.  Returns the
list of module commands issued and the value delivered through the callback
of the caller: `some (.error e)` / `some (.ok sig)` when the callback is
invoked, `none` when it never is.  In the chunked branch the
`SequenceComplete` continuation only logs — it never invokes `callback` —
so that branch yields `none`. -/
def signData (hmacFn : List Nat → List Nat) (capResp : List (Nat × Nat))
    (dataToSign : List Nat) : List SignOp × Option (Except ErrTag (List Nat)) :=
  if capResp.length ≠ 1 ∨ (capResp.headD (0, 0)).1 ≠ INPUT_BUFFER then
    ([SignOp.getCapability], some (Except.error ErrTag.unexpectedCapabilityResult))
  else
    let maxInputBuffer := (capResp.headD (0, 0)).2
    if dataToSign.length ≤ maxInputBuffer then
      ([SignOp.getCapability, SignOp.hmacSingle dataToSign],
        some (Except.ok (hmacFn dataToSign)))
    else
      (SignOp.getCapability :: SignOp.hmacStart ::
        signLoop maxInputBuffer dataToSign dataToSign.length 0 dataToSign.length,
        none)

/-- Outcome of a call to the public `signWithIdentity` entry point: either a
synchronous throw (before any state-machine dispatch or module I/O) or a
dispatch of the data into the state machine. -/
inductive SignCall where
  | thrownReferenceError
  | thrownInvalidOperationError
  | dispatched (dataToSign : List Nat)
deriving Repr, DecidableEq

/-- The public `signWithIdentity` precondition checks (tpm.ts lines 178-186):
`null` or empty data throws `ReferenceError`; a missing identity-key public
descriptor throws `InvalidOperationError`; only then is the operation handed
to the state machine.  `dataToSign = none` models a `null` argument. -/
def signWithIdentity (idKeyPub : Option Pub) (dataToSign : Option (List Nat)) :
    SignCall :=
  match dataToSign with
  | none => SignCall.thrownReferenceError
  | some d =>
    if d.length = 0 then
      SignCall.thrownReferenceError
    else if idKeyPub = none then
      SignCall.thrownInvalidOperationError
    else
      SignCall.dispatched d

end TpmModel

namespace TpmModel

/-- C1: refuted as stated — the code is the slip (the design notes of the
spec flag
the gap).  With `maxInputBuffer = 4`: a 3-byte payload gets exactly one
single-shot HMAC over the whole buffer and that signature is delivered; a
6-byte payload (`k = 1`, `r = 2`) gets the correct chunk sequence (one
`SequenceUpdate` of exactly 4 bytes, one `SequenceComplete` of 2 bytes), but
the callback of the caller is never invoked — `none` is delivered, not the
single-buffer signature the claim requires (the `SequenceComplete`
continuation in the source only logs). -/
theorem signData_chunked_never_delivers :
    signData (fun l => l) [(INPUT_BUFFER, 4)] [1, 2, 3]
      = ([SignOp.getCapability, SignOp.hmacSingle [1, 2, 3]],
          some (Except.ok [1, 2, 3]))
    ∧ signData (fun l => l) [(INPUT_BUFFER, 4)] [1, 2, 3, 4, 5, 6]
      = ([SignOp.getCapability, SignOp.hmacStart,
          SignOp.seqUpdate [1, 2, 3, 4], SignOp.seqComplete [5, 6]],
          none) :=
  ⟨rfl, rfl⟩

/-- C6: `signWithIdentity` with `null` data or empty data resolves to a thrown
`ReferenceError` (a validation error) and with no activated identity key to a
thrown `InvalidOperationError`; in all three cases the result is a synchronous
throw, never a state-machine dispatch (and hence no module I/O). -/
theorem signWithIdentity_preconditions (idKeyPub : Option Pub) (d : List Nat)
    (hd : d ≠ []) :
    signWithIdentity idKeyPub none = SignCall.thrownReferenceError
    ∧ signWithIdentity idKeyPub (some []) = SignCall.thrownReferenceError
    ∧ signWithIdentity none (some d) = SignCall.thrownInvalidOperationError := by
  refine ⟨rfl, rfl, ?_⟩
  simp [signWithIdentity, List.length_eq_zero, hd]

/-- C6 witness: the precondition checks at a concrete identity key and a
concrete non-empty buffer. -/
theorem signWithIdentity_preconditions_witness :
    signWithIdentity (some [9]) none = SignCall.thrownReferenceError
    ∧ signWithIdentity (some [9]) (some []) = SignCall.thrownReferenceError
    ∧ signWithIdentity none (some [1, 2]) = SignCall.thrownInvalidOperationError :=
  signWithIdentity_preconditions (some [9]) [1, 2] (by decide)

end TpmModel

namespace TpmModel

/-- One size-prefixed field of the activation blob: a 2-byte big-endian length
followed by that many payload bytes (tss.js `sizedFromTpm` for fields 1 and 5,
and `fromTpm` of the `TPM2B_*` sized buffers for fields 2-4).  Reading past
the end of the buffer throws in the source (Node range error); that is the
`none` case here. -/
def readSized2 (blob : List Nat) (pos : Nat) : Option (List Nat × Nat) :=
  if pos + 2 ≤ blob.length then
    let size := blob.getD pos 0 * 256 + blob.getD (pos + 1) 0
    if pos + 2 + size ≤ blob.length then
      some ((blob.drop (pos + 2)).take size, pos + 2 + size)
    else
      none
  else
    none

/-- The five ordered fields of an activation blob (tpm.ts lines 283-301):
credential object, encrypted secret, key-duplication blob, encrypted wrap key,
and the public descriptor of the new identity key. -/
structure ActivationBlobFields where
  credentialBlob : List Nat
  encodedSecret : List Nat
  idKeyDupBlob : List Nat
  encWrapKey : List Nat
  idKeyPub : Pub
deriving Repr, DecidableEq

/-- Strictly sequential unmarshalling of the activation blob
(tpm.ts lines 292-301).  Any field that cannot be consumed throws,
modelled as `none`; the source assigns `this._idKeyPub` exactly when the
fifth field is consumed. -/
def parseActivationBlob (blob : List Nat) : Option (ActivationBlobFields × Nat) := do
  let (credentialBlob, p1) ← readSized2 blob 0
  let (encodedSecret, p2) ← readSized2 blob p1
  let (idKeyDupBlob, p3) ← readSized2 blob p2
  let (encWrapKey, p4) ← readSized2 blob p3
  let (idKeyPub, p5) ← readSized2 blob p4
  some (⟨credentialBlob, encodedSecret, idKeyDupBlob, encWrapKey, idKeyPub⟩, p5)

/-- Fault injection for the module steps of an activation run: `true` means
the module reports a non-success response code at that step.  `evictOld` is
the tolerated (`allowErrors`) evict of a previously persisted identity key;
`persistNew` is the evict-control call that persists the new key. -/
structure TpmFaults where
  startAuthSession : Bool
  policySecret : Bool
  activateCredential : Bool
  importKey : Bool
  load : Bool
  evictOld : Bool
  persistNew : Bool
deriving Repr, DecidableEq

/-- A fault schedule with every module step succeeding. -/
def noFaults : TpmFaults :=
  ⟨false, false, false, false, false, false, false⟩

/-- How a call to `_activateSymmetricIdentity` terminates: a synchronous
exception thrown out of the routine (the callback is never invoked), or the
callback invoked with a `SecurityDeviceError`, or the callback invoked with
success. -/
inductive ActOutcome where
  | thrown
  | cbError (e : ErrTag)
  | cbSuccess
deriving Repr, DecidableEq

/-- Result of one `_activateSymmetricIdentity` run: its outcome, the
`_idKeyPub` field of the client afterwards, and the content of the fixed persistent
identity-key handle in the module afterwards. -/
structure ActRun where
  outcome : ActOutcome
  idKeyPub : Option Pub
  idKeySlot : Option Pub
deriving Repr, DecidableEq

/-- The `_activateSymmetricIdentity` routine (tpm.ts lines 281-403).  The blob is
unmarshalled first, synchronously: a parse failure propagates as a thrown
exception before any module I/O, and `this._idKeyPub` is assigned the parsed
fifth field as soon as unmarshalling completes.  Each module step is then
gated on a success response code (`faults` injects the failures); the evict of
a previously persisted identity key tolerates errors (`allowErrors`), while a
failing persist step surfaces a device error.  On success the newly loaded
key is persisted at the fixed identity-key handle and the trailing flushes
are best-effort. -/
def activateSymmetricIdentityRun (idKeyPub0 : Option Pub) (idKeySlot : Option Pub)
    (faults : TpmFaults) (activationBlob : List Nat) : ActRun :=
  match parseActivationBlob activationBlob with
  | none => ⟨ActOutcome.thrown, idKeyPub0, idKeySlot⟩
  | some (fields, _) =>
    let idKeyPub := some fields.idKeyPub
    if faults.startAuthSession then
      ⟨ActOutcome.cbError ErrTag.authSessionFailed, idKeyPub, idKeySlot⟩
    else if faults.policySecret then
      ⟨ActOutcome.cbError ErrTag.policySecretFailed, idKeyPub, idKeySlot⟩
    else if faults.activateCredential then
      ⟨ActOutcome.cbError ErrTag.activateCredentialFailed, idKeyPub, idKeySlot⟩
    else if faults.importKey then
      ⟨ActOutcome.cbError ErrTag.importFailed, idKeyPub, idKeySlot⟩
    else if faults.load then
      ⟨ActOutcome.cbError ErrTag.loadFailed, idKeyPub, idKeySlot⟩
    else
      let slotAfterEvict := if faults.evictOld then idKeySlot else none
      if faults.persistNew then
        ⟨ActOutcome.cbError ErrTag.persistFailed, idKeyPub, slotAfterEvict⟩
      else
        ⟨ActOutcome.cbSuccess, idKeyPub, some fields.idKeyPub⟩

end TpmModel

namespace TpmModel

/-- The three states of the machina state machine (tpm.ts lines 51-167). -/
inductive FsmStateId where
  | disconnected
  | connecting
  | connected
deriving Repr, DecidableEq

/-- The client-side state the state machine owns: the current state and the
cached endorsement-key, storage-root-key and identity-key public descriptors. -/
structure ClientState where
  state : FsmStateId
  ek : Option Pub
  srk : Option Pub
  idKeyPub : Option Pub
deriving Repr, DecidableEq

/-- The `disconnected._onEnter` handler (tpm.ts lines 55-65): entering
`disconnected`
clears the cached endorsement-key and storage-root-key descriptors (the
pending callback is then resolved with the carried error, or with success). -/
def disconnectedOnEnter (c : ClientState) : ClientState :=
  { c with state := FsmStateId.disconnected, ek := none, srk := none }

/-- What one `connected`-state dispatch delivers to the caller and whether a
transition happened: a synchronous throw (no callback, no transition), or a
callback carrying an error after the transition to `disconnected`, or a
success callback with the machine still `connected`. -/
inductive DispatchOutcome where
  | thrown
  | callbackErr (e : ErrTag)
  | callbackOk
deriving Repr, DecidableEq

/-- The `connected.signWithIdentity` handler (tpm.ts lines 145-153): the
outcome of `_signData` is delivered through the callback of the caller on
success; on error
the machine transitions to `disconnected` carrying that error (whose
`_onEnter` clears the cached descriptors and resolves the callback with the
error).  `signOutcome` is the value `_signData` hands its callback. -/
def connectedSignWithIdentity (c : ClientState)
    (signOutcome : Except ErrTag (List Nat)) :
    DispatchOutcome × ClientState :=
  match signOutcome with
  | Except.error e => (DispatchOutcome.callbackErr e, disconnectedOnEnter c)
  | Except.ok _ => (DispatchOutcome.callbackOk, c)

/-- The `connected.activateSymmetricIdentity` handler (tpm.ts lines 155-164):
runs
`_activateSymmetricIdentity`; a callback error forces the transition to
`disconnected` carrying that error, a success is delivered with the machine
still `connected`, and a synchronous throw from the unmarshalling propagates
out of the handler — no callback, no transition.  Returns the dispatch
outcome, the client state afterwards and the identity-key slot of the module
afterwards. -/
def connectedActivateSymmetricIdentity (c : ClientState) (idKeySlot : Option Pub)
    (faults : TpmFaults) (activationBlob : List Nat) :
    DispatchOutcome × ClientState × Option Pub :=
  let run := activateSymmetricIdentityRun c.idKeyPub idKeySlot faults activationBlob
  match run.outcome with
  | ActOutcome.thrown =>
    (DispatchOutcome.thrown, { c with idKeyPub := run.idKeyPub }, run.idKeySlot)
  | ActOutcome.cbError e =>
    (DispatchOutcome.callbackErr e,
      disconnectedOnEnter { c with idKeyPub := run.idKeyPub }, run.idKeySlot)
  | ActOutcome.cbSuccess =>
    (DispatchOutcome.callbackOk, { c with idKeyPub := run.idKeyPub }, run.idKeySlot)

/-- A well-formed activation blob: five 2-byte-size-prefixed fields whose
fifth field (the identity-key public descriptor) is the two bytes `[21, 22]`. -/
def blobA : List Nat :=
  [0, 1, 10, 0, 1, 11, 0, 1, 12, 0, 1, 13, 0, 2, 21, 22]

/-- C2 counterexample: an activation attempt that fails (the auth-session step
reports a non-success code) nevertheless leaves the identity-key public
descriptor set — the source assigns `this._idKeyPub` while unmarshalling the
blob, before any module step — so a subsequent `signWithIdentity` dispatches
instead of raising `InvalidOperationError`. -/
theorem activate_module_failure_leaves_idKeyPub_set :
    activateSymmetricIdentityRun none none
        ⟨true, false, false, false, false, false, false⟩ blobA
      = ⟨ActOutcome.cbError ErrTag.authSessionFailed, some [21, 22], none⟩
    ∧ signWithIdentity (some [21, 22]) (some [1]) = SignCall.dispatched [1] :=
  ⟨rfl, rfl⟩

/-- C2 amended: starting with no identity key, after an activation attempt the
identity-key public descriptor is unset exactly when the blob fails to parse
(the parse failure throws before the descriptor assignment, so
`signWithIdentity` still raises `InvalidOperationError`); once all five fields
parse, the descriptor is set regardless of any later module-step failure. -/
theorem activate_idKeyPub_unset_iff_parse_fails (idKeySlot : Option Pub)
    (faults : TpmFaults) (blob : List Nat) :
    (activateSymmetricIdentityRun none idKeySlot faults blob).idKeyPub = none
      ↔ parseActivationBlob blob = none := by
  cases h : parseActivationBlob blob with
  | none => simp [activateSymmetricIdentityRun, h]
  | some v =>
    obtain ⟨fields, p⟩ := v
    simp only [activateSymmetricIdentityRun, h]
    constructor
    · intro hk
      exfalso
      revert hk
      split <;> try simp
      split <;> try simp
      split <;> try simp
      split <;> try simp
      split <;> try simp
      split <;> simp
    · intro hk
      exact absurd hk (by simp)

/-- C3 counterexample: a device error forced at the persist step does not
leave the previously persisted identity key untouched — the preceding
(tolerated) evict already removed the old key from the fixed handle, so a
persist failure leaves the handle empty rather than holding the old key
`[7]`. -/
theorem activate_persist_failure_evicts_old_key :
    activateSymmetricIdentityRun none (some [7])
        ⟨false, false, false, false, false, false, true⟩ blobA
      = ⟨ActOutcome.cbError ErrTag.persistFailed, some [21, 22], none⟩ :=
  rfl

/-- C3 amended: a device error forced at any module step strictly before the
evict-of-the-old-key step (auth session, policy, credential activation, key
importing, key loading) leaves the previously persisted identity key at the
fixed handle untouched; the replace is atomic only in that restricted sense —
a failure at the persist step itself finds the old key already evicted. -/
theorem activate_preEvict_failure_preserves_slot (idKeyPub0 idKeySlot : Option Pub)
    (faults : TpmFaults) (blob : List Nat)
    (h : faults.startAuthSession = true ∨ faults.policySecret = true
      ∨ faults.activateCredential = true ∨ faults.importKey = true
      ∨ faults.load = true) :
    (activateSymmetricIdentityRun idKeyPub0 idKeySlot faults blob).idKeySlot
      = idKeySlot := by
  cases hp : parseActivationBlob blob with
  | none => simp [activateSymmetricIdentityRun, hp]
  | some v =>
    obtain ⟨fields, p⟩ := v
    simp only [activateSymmetricIdentityRun, hp]
    split
    · rfl
    split
    · rfl
    split
    · rfl
    split
    · rfl
    split
    · rfl
    simp_all

/-- C3 witness: a run failing at the load step, over a previously persisted
key `[7]`, leaves that key in place. -/
theorem activate_preEvict_failure_preserves_slot_witness :
    (⟨false, false, false, false, true, false, false⟩ : TpmFaults).load = true
    ∧ (activateSymmetricIdentityRun none (some [7])
        ⟨false, false, false, false, true, false, false⟩ blobA).idKeySlot
      = some [7] :=
  ⟨rfl, activate_preEvict_failure_preserves_slot none (some [7]) _ blobA
    (Or.inr (Or.inr (Or.inr (Or.inr rfl))))⟩

/-- C10: when the activation blob fails to unmarshal, the failure surfaces as
a synchronous exception out of the `connected` activation handler: the
callback of the caller is never invoked (`DispatchOutcome.thrown`), the client
state — including the machine state — is unchanged (no transition to
`disconnected`), and the identity-key slot of the module is untouched. -/
theorem activate_parse_failure_throws_no_callback (c : ClientState)
    (idKeySlot : Option Pub) (faults : TpmFaults) (blob : List Nat)
    (h : parseActivationBlob blob = none) :
    connectedActivateSymmetricIdentity c idKeySlot faults blob
      = (DispatchOutcome.thrown, c, idKeySlot) := by
  simp [connectedActivateSymmetricIdentity, activateSymmetricIdentityRun, h]

/-- C10 witness: a truncated blob (its first field declares 5 payload bytes
but only 1 follows) fails to parse, and dispatching it from the `connected`
state throws with no callback and no transition. -/
theorem activate_parse_failure_throws_no_callback_witness :
    parseActivationBlob [0, 5, 1] = none
    ∧ connectedActivateSymmetricIdentity
        ⟨FsmStateId.connected, some [1], some [2], none⟩ none noFaults [0, 5, 1]
      = (DispatchOutcome.thrown,
          ⟨FsmStateId.connected, some [1], some [2], none⟩, none) :=
  ⟨rfl, activate_parse_failure_throws_no_callback
    ⟨FsmStateId.connected, some [1], some [2], none⟩ none noFaults [0, 5, 1] rfl⟩

/-- C8: a failure surfaced by signing or by activation while `connected`
forces the immediate transition to `disconnected` carrying that error, and
entering `disconnected` clears the cached endorsement-key and
storage-root-key descriptors; the error is delivered to the caller once, with
no re-dispatch of the failed operation (the next call finds the machine
`disconnected` and starts a fresh connect-and-provision cycle). -/
theorem connected_failure_transitions_to_disconnected (c : ClientState)
    (e : ErrTag) (idKeySlot : Option Pub) (faults : TpmFaults) (blob : List Nat)
    (e2 : ErrTag)
    (hact : (activateSymmetricIdentityRun c.idKeyPub idKeySlot faults blob).outcome
      = ActOutcome.cbError e2) :
    connectedSignWithIdentity c (Except.error e)
      = (DispatchOutcome.callbackErr e,
          { c with state := FsmStateId.disconnected, ek := none, srk := none })
    ∧ (connectedActivateSymmetricIdentity c idKeySlot faults blob).1
        = DispatchOutcome.callbackErr e2
    ∧ (connectedActivateSymmetricIdentity c idKeySlot faults blob).2.1.state
        = FsmStateId.disconnected
    ∧ (connectedActivateSymmetricIdentity c idKeySlot faults blob).2.1.ek = none
    ∧ (connectedActivateSymmetricIdentity c idKeySlot faults blob).2.1.srk = none := by
  refine ⟨rfl, ?_, ?_, ?_, ?_⟩ <;>
    simp [connectedActivateSymmetricIdentity, hact, disconnectedOnEnter]

/-- C8 witness: with cached descriptors in place, a signing error and an
activation whose auth-session step fails both land the machine in
`disconnected` with the caches cleared. -/
theorem connected_failure_transitions_to_disconnected_witness :
    (activateSymmetricIdentityRun
        (ClientState.idKeyPub ⟨FsmStateId.connected, some [1], some [2], none⟩)
        none ⟨true, false, false, false, false, false, false⟩ blobA).outcome
      = ActOutcome.cbError ErrTag.authSessionFailed
    ∧ connectedSignWithIdentity ⟨FsmStateId.connected, some [1], some [2], none⟩
        (Except.error (ErrTag.connectFailed 3))
      = (DispatchOutcome.callbackErr (ErrTag.connectFailed 3),
          ⟨FsmStateId.disconnected, none, none, none⟩)
    ∧ (connectedActivateSymmetricIdentity
        ⟨FsmStateId.connected, some [1], some [2], none⟩ none
        ⟨true, false, false, false, false, false, false⟩ blobA).2.1.state
      = FsmStateId.disconnected :=
  ⟨rfl,
    (connected_failure_transitions_to_disconnected
      ⟨FsmStateId.connected, some [1], some [2], none⟩ (ErrTag.connectFailed 3)
      none ⟨true, false, false, false, false, false, false⟩ blobA
      ErrTag.authSessionFailed rfl).1,
    (connected_failure_transitions_to_disconnected
      ⟨FsmStateId.connected, some [1], some [2], none⟩ (ErrTag.connectFailed 3)
      none ⟨true, false, false, false, false, false, false⟩ blobA
      ErrTag.authSessionFailed rfl).2.2.1⟩

end TpmModel

namespace TpmModel

/-- TPM module commands issued by `_createPersistentPrimary`. -/
inductive ProvOp where
  | readPublic
  | createPrimary
  | evictControl
  | flushContext
deriving Repr, DecidableEq

/-- Response code of the initial `ReadPublic` at the target persistent
handle: success, the expected not-found code for an absent object, or any
other non-success code. -/
inductive ReadRc where
  | success
  | handleNotFound
  | otherFailure (code : Nat)
deriving Repr, DecidableEq

/-- The module as `_createPersistentPrimary` sees it: the object (if any) at
the target persistent handle, and an injected read fault — `some code` makes
`ReadPublic` report that non-success code regardless of the slot. -/
structure ProvModule where
  slot : Option Pub
  readFault : Option Nat
deriving Repr, DecidableEq

/-- The `ReadPublic` call at the target handle (`allowErrors` mode, so the
response
code is observed rather than thrown): with no injected fault it reports
success and the stored descriptor when the slot is occupied, and the
not-found code otherwise. -/
def readPublicAt (m : ProvModule) : ReadRc × Option Pub :=
  match m.readFault with
  | some code => (ReadRc.otherFailure code, none)
  | none =>
    match m.slot with
    | some pub => (ReadRc.success, some pub)
    | none => (ReadRc.handleNotFound, none)

/-- The `_createPersistentPrimary` routine (tpm.ts lines 219-238): read the
public area at
the target persistent handle; on any non-success response code create a
primary object from the template (`generate` abstracts the key generation of
the module), evict it to the persistent handle, flush the transient handle
and return the created descriptor; on success return the descriptor that was
read.  The source checks only success-vs-non-success on the read and ignores
the create/evict response codes entirely, so the callback always receives a
descriptor and never an error.  Evicting to an already occupied persistent
handle fails in the module (the code ignores that too), leaving the previous
content of the slot. -/
def createPersistentPrimary (generate : Pub) (m : ProvModule) :
    List ProvOp × Pub × ProvModule :=
  let (rc, pubRead) := readPublicAt m
  if rc ≠ ReadRc.success then
    ([ProvOp.readPublic, ProvOp.createPrimary, ProvOp.evictControl,
      ProvOp.flushContext],
      generate,
      { m with slot := if m.slot.isSome then m.slot else some generate })
  else
    ([ProvOp.readPublic], pubRead.getD [], m)

/-- C4 counterexample: with an unexpected (non-not-found) response code
injected on the initial read, `_createPersistentPrimary` does not propagate a
failure — it performs the create/evict sequence and returns the freshly
created descriptor, exactly as it does for the expected not-found code. -/
theorem createPersistentPrimary_other_code_still_creates :
    createPersistentPrimary [5] ⟨none, some 1⟩
      = ([ProvOp.readPublic, ProvOp.createPrimary, ProvOp.evictControl,
          ProvOp.flushContext], [5], ⟨some [5], some 1⟩)
    ∧ ReadRc.otherFailure 1 ≠ ReadRc.handleNotFound :=
  ⟨rfl, by decide⟩

/-- C4 amended: the provisioner branches only on success versus non-success
of the initial read — every non-success response code, not only the expected
not-found one, triggers the create/evict/flush path, and no read response
code ever propagates to the caller as a failure (the callback always receives
a descriptor). -/
theorem createPersistentPrimary_any_nonsuccess_creates (generate : Pub)
    (m : ProvModule) (h : (readPublicAt m).1 ≠ ReadRc.success) :
    (createPersistentPrimary generate m).1
      = [ProvOp.readPublic, ProvOp.createPrimary, ProvOp.evictControl,
          ProvOp.flushContext]
    ∧ (createPersistentPrimary generate m).2.1 = generate := by
  constructor <;> simp [createPersistentPrimary, h]

/-- C4 witness: an injected unexpected read code drives the create path and
returns the created descriptor. -/
theorem createPersistentPrimary_any_nonsuccess_creates_witness :
    (readPublicAt ⟨none, some 9⟩).1 ≠ ReadRc.success
    ∧ (createPersistentPrimary [5] ⟨none, some 9⟩).1
      = [ProvOp.readPublic, ProvOp.createPrimary, ProvOp.evictControl,
          ProvOp.flushContext]
    ∧ (createPersistentPrimary [5] ⟨none, some 9⟩).2.1 = [5] :=
  ⟨by decide,
    (createPersistentPrimary_any_nonsuccess_creates [5] ⟨none, some 9⟩ (by decide)).1,
    (createPersistentPrimary_any_nonsuccess_creates [5] ⟨none, some 9⟩ (by decide)).2⟩

/-- C5: provisioning the same named persistent key twice in sequence against
a fault-free module is idempotent — whatever the initial slot content, the
second call performs only the read (no create, no evict), observes the
already-present object and returns a descriptor identical to that of the
first call. -/
theorem createPersistentPrimary_idempotent (generate : Pub) (slot0 : Option Pub) :
    ((createPersistentPrimary generate
        (createPersistentPrimary generate ⟨slot0, none⟩).2.2).1
      = [ProvOp.readPublic])
    ∧ (createPersistentPrimary generate
        (createPersistentPrimary generate ⟨slot0, none⟩).2.2).2.1
      = (createPersistentPrimary generate ⟨slot0, none⟩).2.1 := by
  cases slot0 <;> simp [createPersistentPrimary, readPublicAt]

end TpmModel

namespace TpmModel

/-- The public operations the state machine can be asked to handle (tpm.ts
`_fsm.handle` inputs), with their arguments. -/
inductive PendingOp where
  | getEndorsementKeyOp
  | getStorageRootKeyOp
  | signWithIdentityOp (dataToSign : List Nat)
  | activateSymmetricIdentityOp (identityKey : List Nat)
deriving Repr, DecidableEq

/-- Modelled from the spec: the defer queue of the external machina FSM
library.  The catch-all handler of the `connecting` state (tpm.ts line 133)
routes every operation to `deferUntilTransition`; per the concurrency model
of the spec,
such operations are queued and, once the transition resolves, replayed in
their original submission order (FIFO). -/
structure ConnectingState where
  deferredQueue : List PendingOp
deriving Repr, DecidableEq

/-- Modelled from the spec: handling any operation while `connecting` appends
it to the defer queue (machina `deferUntilTransition`). -/
def connectingHandle (s : ConnectingState) (op : PendingOp) : ConnectingState :=
  ⟨s.deferredQueue ++ [op]⟩

/-- Modelled from the spec: when the `connecting` transition resolves, the
deferred operations are replayed against the new state in queue order; this
is the dispatch order of the replay. -/
def replayDeferred (s : ConnectingState) : List PendingOp :=
  s.deferredQueue

/-- C9: operations A then B submitted while the machine is `connecting` are
both deferred, and once the transition resolves they are replayed after all
previously queued work in exactly the order A then B — the dispatch of A
strictly precedes that of B. -/
theorem connecting_defers_fifo (s : ConnectingState) (a b : PendingOp) :
    replayDeferred (connectingHandle (connectingHandle s a) b)
      = replayDeferred s ++ [a, b] := by
  simp [replayDeferred, connectingHandle]

end TpmModel

namespace TpmModel

/-- The RFC 4648 base-32 alphabet used by the `base32-encode` collaborator. -/
def base32Alphabet : List Char := "ABCDEFGHIJKLMNOPQRSTUVWXYZ234567".toList

/-- The eight bits of a byte, most significant first. -/
def byteBits (b : Nat) : List Bool :=
  [b / 128 % 2 == 1, b / 64 % 2 == 1, b / 32 % 2 == 1, b / 16 % 2 == 1,
   b / 8 % 2 == 1, b / 4 % 2 == 1, b / 2 % 2 == 1, b % 2 == 1]

/-- Split a list into consecutive chunks of at most `n` elements (`fuel`
bounds the recursion; `l.length` always suffices for `n ≥ 1`). -/
def chunksOfAux {α : Type} (n : Nat) : Nat → List α → List (List α)
  | 0, _ => []
  | _, [] => []
  | fuel + 1, l => l.take n :: chunksOfAux n fuel (l.drop n)

/-- Split a list into consecutive chunks of at most `n` elements. -/
def chunksOf {α : Type} (n : Nat) (l : List α) : List (List α) :=
  chunksOfAux n l.length l

/-- The value of a most-significant-first bit group. -/
def bitsVal (g : List Bool) : Nat :=
  g.foldl (fun acc b => acc * 2 + (if b then 1 else 0)) 0

/-- RFC 4648 base-32 of a byte sequence with `=` padding to a multiple of
eight characters (the RFC4648 mode of the `base32Encode` collaborator used by
`getRegistrationId`). -/
def base32Encode (bytes : List Nat) : String :=
  let bits := (bytes.map byteBits).flatten
  let groups := chunksOf 5 bits
  let chars := groups.map
    (fun g =>
      base32Alphabet.getD (bitsVal (g ++ List.replicate (5 - g.length) false)) 'A')
  let padLen := (8 - chars.length % 8) % 8
  String.mk (chars ++ List.replicate padLen '=')

/-- The `toLowerCase()` string method used by the source. -/
def lowerString (s : String) : String :=
  String.mk (s.toList.map Char.toLower)

/-- The global equals-sign replace of the source: remove every `=` character
(for base-32
output these occur only as trailing padding). -/
def stripEquals (s : String) : String :=
  String.mk (s.toList.filter (fun c => c ≠ '='))

/-- The `_registrationId` field after the constructor ran (tpm.ts lines
44-50): the supplied id when one was given and non-empty (JavaScript
truthiness of the string), the empty string otherwise. -/
def mkRegistrationId (registrationId : Option String) : String :=
  match registrationId with
  | some r => if r.length ≠ 0 then r else ""
  | none => ""

/-- Result of one `getRegistrationId` call: the value delivered through the
callback, the `_registrationId` field afterwards, and whether the
hash-encode-cache branch ran. -/
structure RegCall where
  result : Except ErrTag String
  registrationId : String
  hashed : Bool
deriving Repr

/-- The `getRegistrationId` method (tpm.ts lines 195-217).  A truthy
(non-empty) cached
or construction-time `_registrationId` is returned as is; otherwise the
endorsement key is fetched (`ekResult` abstracts `getEndorsementKey`, which
may itself connect and provision), an endorsement error is passed through,
and on success the SHA-256 digest (`sha256` abstracts the crypto
collaborator) is base-32 encoded, lowercased, stripped of `=` and cached. -/
def getRegistrationId (sha256 : List Nat → List Nat) (registrationId : String)
    (ekResult : Except ErrTag (List Nat)) : RegCall :=
  if registrationId.length ≠ 0 then
    ⟨Except.ok registrationId, registrationId, false⟩
  else
    match ekResult with
    | Except.error e => ⟨Except.error e, registrationId, false⟩
    | Except.ok endorsementKey =>
      let computed := stripEquals (lowerString (base32Encode (sha256 endorsementKey)))
      ⟨Except.ok computed, computed, true⟩

/-- C7 counterexample: a client constructed with the caller-supplied id `""`
does not return that id unchanged — the truthiness test of the constructor
treats
the empty string as absent, so `getRegistrationId` derives the id from the
endorsement key instead (here `"aa"`). -/
theorem getRegistrationId_empty_supplied_id_not_returned :
    getRegistrationId (fun _ => [0]) (mkRegistrationId (some "")) (Except.ok [1])
      = ⟨Except.ok "aa", "aa", true⟩
    ∧ "aa" ≠ "" := by
  constructor
  · rfl
  · decide

/-- C7 amended: when a non-empty id was supplied at construction it is
returned unchanged on every call, whatever the endorsement key, and nothing
is recomputed; when none was supplied (or the empty string, which the
constructor treats as absent), the first call returns lowercase RFC 4648
base-32 of SHA-256 of the endorsement-key bytes with the `=` padding stripped
and caches it, and — the computed string being non-empty — every subsequent
call returns the cached string without recomputation. -/
theorem getRegistrationId_spec (sha256 : List Nat → List Nat) (r : String)
    (ekResult ekResult2 : Except ErrTag (List Nat)) (endorsementKey : List Nat)
    (hr : r ≠ "")
    (hid : stripEquals (lowerString (base32Encode (sha256 endorsementKey))) ≠ "") :
    getRegistrationId sha256 (mkRegistrationId (some r)) ekResult
      = ⟨Except.ok r, r, false⟩
    ∧ getRegistrationId sha256 (mkRegistrationId none) (Except.ok endorsementKey)
      = ⟨Except.ok (stripEquals (lowerString (base32Encode (sha256 endorsementKey)))),
          stripEquals (lowerString (base32Encode (sha256 endorsementKey))), true⟩
    ∧ getRegistrationId sha256
        (getRegistrationId sha256 (mkRegistrationId none)
          (Except.ok endorsementKey)).registrationId ekResult2
      = ⟨Except.ok (stripEquals (lowerString (base32Encode (sha256 endorsementKey)))),
          stripEquals (lowerString (base32Encode (sha256 endorsementKey))), false⟩ := by
  have hr' : r.length ≠ 0 := by
    intro h
    exact hr (by
      cases r with
      | mk data => simp [String.length] at h; simp [h])
  have hid' : (stripEquals (lowerString (base32Encode (sha256 endorsementKey)))).length ≠ 0 := by
    intro h
    apply hid
    generalize stripEquals (lowerString (base32Encode (sha256 endorsementKey))) = s at h ⊢
    cases s with
    | mk data => simp [String.length] at h; simp [h]
  refine ⟨?_, ?_, ?_⟩
  · simp [getRegistrationId, mkRegistrationId, hr']
  · simp [getRegistrationId, mkRegistrationId]
  · simp [getRegistrationId, mkRegistrationId, hid']

/-- C7 witness: with a concrete hash collaborator, the supplied id
`"abc123"` is always returned; with no supplied id the first call computes
and caches `"aa"` and the second call returns it without recomputation. -/
theorem getRegistrationId_spec_witness :
    ( "abc123" : String) ≠ ""
    ∧ stripEquals (lowerString (base32Encode ((fun _ => [0]) ([1] : List Nat)))) ≠ ""
    ∧ getRegistrationId (fun _ => [0]) (mkRegistrationId (some "abc123"))
        (Except.ok [9, 9])
      = ⟨Except.ok "abc123", "abc123", false⟩
    ∧ getRegistrationId (fun _ => [0]) (mkRegistrationId none) (Except.ok [1])
      = ⟨Except.ok "aa", "aa", true⟩
    ∧ getRegistrationId (fun _ => [0])
        (getRegistrationId (fun _ => [0]) (mkRegistrationId none)
          (Except.ok [1])).registrationId (Except.error (ErrTag.connectFailed 2))
      = ⟨Except.ok "aa", "aa", false⟩ := by
  have h := getRegistrationId_spec (fun _ => [0]) "abc123"
    (Except.ok [9, 9]) (Except.error (ErrTag.connectFailed 2)) [1]
    (by decide) (by decide)
  exact ⟨by decide, by decide, h.1, h.2.1, h.2.2⟩

end TpmModel
